import Mathlib

/-!
A shallow embedding of `src/packages/langchain_2ly/examples/format_response.py`
(the Run Report Builder): the function `format_agent_response` extracts a
report (final answer, tool-call count, last usage record, message count) from
an agent run and renders it as terminal text.

Python values are modelled as follows: a possibly-absent attribute or dict key
is an `Option`; a Python `usage_metadata` attribute may itself hold `None` or a
dict, hence `Option (Option Usage)`; truthiness of a string is non-emptiness,
of a list non-emptiness, of a usage dict the presence of at least one key.
`print` output is modelled as the printed string followed by a newline,
concatenated over the print statements in source order; the wall-clock
timestamp of line 39 is passed in as an explicit `timestamp` argument.
-/

/-- A tool-call record; only its identity matters to the report builder
(line 29 takes `len` of the list). -/
abbrev ToolCall := Nat

/-- A usage-metadata dict with the three keys read at lines 63-65; a `none`
field is an absent key (so `.get` falls back to the default). -/
structure Usage where
  input_tokens : Option Nat
  output_tokens : Option Nat
  total_tokens : Option Nat
deriving DecidableEq, Repr

/-- Python truthiness of a usage dict: non-empty, i.e. at least one key
present. -/
def Usage.truthy (u : Usage) : Bool :=
  u.input_tokens.isSome || u.output_tokens.isSome || u.total_tokens.isSome

/-- One message of the run. `content = none` covers both a missing attribute
and a `None` value (lines 22, 28, 30 guard with `hasattr`/truthiness);
`usage_metadata = some v` means the attribute exists and holds `v`, where `v`
may itself be `none` (Python `None`) or a dict. -/
structure Message where
  content : Option String
  tool_calls : Option (List ToolCall)
  usage_metadata : Option (Option Usage)
deriving DecidableEq, Repr

/-- The `response` dict as consumed at line 15: only the `'messages'` key is
read, with default `[]` when absent. -/
structure Response where
  messages : Option (List Message)
deriving DecidableEq, Repr

/-- The structured report extracted by lines 15-31 before rendering. -/
structure Report where
  finalAnswer : Option String
  toolCallCount : Nat
  usage : Option Usage
  messageCount : Nat
deriving DecidableEq, Repr

/-- Truthiness of `message.content` as tested at line 22:
`hasattr(message, 'content') and message.content`. -/
def contentTruthy : Option String → Bool
  | none => false
  | some s => !s.isEmpty

/-- Truthiness of the `token_usage` accumulator as tested at line 62. -/
def tokenUsageTruthy : Option Usage → Bool
  | none => false
  | some u => u.truthy

/-- The reverse scan of lines 21-24: iterate over `reversed(messages)` (here:
over an already-reversed list), take the first truthy content and stop. -/
def scanReversed : List Message → Option String
  | [] => none
  | m :: rest => if contentTruthy m.content then m.content else scanReversed rest

/-- The forward loop of lines 27-31 over `(tool_calls_count, token_usage)`:
add `len(message.tool_calls)` when the attribute exists and the list is truthy
(non-empty); overwrite `token_usage` whenever the `usage_metadata` attribute
exists, whatever its value. -/
def forwardLoop (tool_calls_count : Nat) (token_usage : Option Usage) :
    List Message → Nat × Option Usage
  | [] => (tool_calls_count, token_usage)
  | m :: rest =>
      forwardLoop
        (match m.tool_calls with
         | some tcs => if tcs.isEmpty then tool_calls_count
                       else tool_calls_count + tcs.length
         | none => tool_calls_count)
        (match m.usage_metadata with
         | some v => v
         | none => token_usage)
        rest

/-- The extraction phase (lines 15-31) packaged as the spec's `buildReport`:
`messages = response.get('messages', [])` (line 15, here inlined at each
use), then the reverse content scan and the forward tool-call/usage loop,
plus `len(messages)` (line 70). -/
def buildReport (response : Response) : Report :=
  { finalAnswer := scanReversed (response.messages.getD []).reverse
    toolCallCount := (forwardLoop 0 none (response.messages.getD [])).1
    usage := (forwardLoop 0 none (response.messages.getD [])).2
    messageCount := (response.messages.getD []).length }

/-- ANSI code of line 7. -/
def BLUE : String := "\x1b[94m"

/-- ANSI code of line 8. -/
def RED : String := "\x1b[91m"

/-- ANSI code of line 9. -/
def PURPLE : String := "\x1b[95m"

/-- ANSI code of line 10. -/
def DARK_GREY : String := "\x1b[90m"

/-- ANSI code of line 11. -/
def BOLD : String := "\x1b[1m"

/-- ANSI code of line 12. -/
def RESET : String := "\x1b[0m"

/-- The banner rule `'='*80`. -/
def bar : String := String.mk (List.replicate 80 '=')

/-- One `print(s)` call: the argument followed by the newline `print`
appends. -/
def pyPrint (s : String) : String := s ++ "\n"

/-- The question print of line 45: a single print of the indentation prefix
followed by the question verbatim. -/
def questionOut (user_question : String) : String :=
  pyPrint (DARK_GREY ++ "   " ++ user_question ++ RESET)

/-- Lines 34-48: banner, title, timestamp, model, question header, question,
answer header. -/
def headerText (user_question model_name timestamp : String) : String :=
  pyPrint ("\n" ++ BLUE ++ bar ++ RESET) ++
  pyPrint (BOLD ++ BLUE ++ "  🤖 2ly Agent Response" ++ RESET) ++
  pyPrint (BLUE ++ bar ++ RESET) ++
  pyPrint (PURPLE ++ "📅 Timestamp:" ++ RESET ++ " " ++ timestamp) ++
  pyPrint (PURPLE ++ "🔧 Model:" ++ RESET ++ " " ++ model_name) ++
  pyPrint ("\n" ++ BOLD ++ BLUE ++ "❓ Question:" ++ RESET) ++
  questionOut user_question ++
  pyPrint ("\n" ++ BOLD ++ BLUE ++ "💬 Answer:" ++ RESET)

/-- The loop body of lines 52-56: a truthy (non-blank after strip) line is
stripped and indented, a blank line becomes an empty print. -/
def answerLine (line : String) : String :=
  if line.trim.isEmpty then "" else DARK_GREY ++ "   " ++ line.trim ++ RESET

/-- Lines 49-58: if `final_answer` is truthy, one print per line of
`final_answer.split('\n')`; otherwise the fixed marker print. -/
def answerPrints (final_answer : Option String) : List String :=
  match final_answer with
  | some s =>
      if !s.isEmpty then (s.splitOn "\n").map answerLine
      else [RED ++ "   No response found" ++ RESET]
  | none => [RED ++ "   No response found" ++ RESET]

/-- The answer section as output text. -/
def answerText (final_answer : Option String) : String :=
  String.join ((answerPrints final_answer).map pyPrint)

/-- `token_usage.get(key, 'N/A')` rendered as at lines 63-65. -/
def tokField : Option Nat → String
  | some n => toString n
  | none => "N/A"

/-- Lines 62-65: the three token prints, emitted only when `token_usage` is
truthy. -/
def usagePrints : Option Usage → List String
  | some u =>
      if u.truthy then
        [ PURPLE ++ "   • Input tokens:" ++ RESET ++ " " ++ tokField u.input_tokens,
          PURPLE ++ "   • Output tokens:" ++ RESET ++ " " ++ tokField u.output_tokens,
          PURPLE ++ "   • Total tokens:" ++ RESET ++ " " ++ tokField u.total_tokens ]
      else []
  | none => []

/-- Lines 67-68: the tool-call print, emitted only when the count is
positive. -/
def toolPrints (tool_calls_count : Nat) : List String :=
  if tool_calls_count > 0 then
    [PURPLE ++ "   • Tool calls made:" ++ RESET ++ " " ++ toString tool_calls_count]
  else []

/-- The prints of the metadata body, lines 62-70: token lines, tool-call
line, then the unconditional message-count line. -/
def metaPrints (report : Report) : List String :=
  usagePrints report.usage ++ toolPrints report.toolCallCount ++
  [PURPLE ++ "   • Total messages:" ++ RESET ++ " " ++ toString report.messageCount]

/-- Lines 61-72: metadata header, metadata body, closing banner. -/
def metaText (report : Report) : String :=
  pyPrint ("\n" ++ BOLD ++ BLUE ++ "📊 Metadata:" ++ RESET) ++
  String.join ((metaPrints report).map pyPrint) ++
  pyPrint (BLUE ++ bar ++ RESET ++ "\n")

/-- The spec's `renderReport`: all prints of lines 33-72 in order. -/
def renderOutput (report : Report) (user_question model_name timestamp : String) :
    String :=
  headerText user_question model_name timestamp ++
  answerText report.finalAnswer ++
  metaText report

/-- The whole function of lines 3-72: extraction then rendering, with the
wall-clock timestamp passed in explicitly. -/
def format_agent_response (response : Response)
    (user_question model_name timestamp : String) : String :=
  renderOutput (buildReport response) user_question model_name timestamp

/-! Analysis devices: closed forms for the two loop accumulators, and a line
splitter for reasoning about the rendered output. -/

/-- The total number of tool-call records across the run, an absent list
counting 0: the closed form of the forward loop's first accumulator. -/
def toolSum (ms : List Message) : Nat :=
  (ms.map (fun m => (m.tool_calls.getD []).length)).sum

/-- The forward loop's usage accumulator in isolation: overwritten by every
message whose `usage_metadata` attribute exists, whatever value it holds. -/
def usageLoop (token_usage : Option Usage) : List Message → Option Usage
  | [] => token_usage
  | m :: rest =>
      usageLoop (match m.usage_metadata with
                 | some v => v
                 | none => token_usage) rest

/-- Split a character list on `'\n'`, with the semantics of Python
`str.split('\n')`: used to name the individual lines of the rendering. -/
def splitCharsOnNl : List Char → List (List Char)
  | [] => [[]]
  | c :: cs =>
      match splitCharsOnNl cs with
      | [] => [[]]
      | l :: ls => if c = '\n' then [] :: l :: ls else (c :: l) :: ls

/-- The lines of a rendered output string. -/
def splitLines (s : String) : List String :=
  (splitCharsOnNl s.data).map String.mk

/-- The string contains no line break. -/
abbrev noNl (s : String) : Prop := ∀ c ∈ s.data, c ≠ '\n'

/-! Concrete sample data used to instantiate the general theorems. -/

/-- A sample usage record. -/
def u1 : Usage := { input_tokens := some 5, output_tokens := some 3, total_tokens := some 8 }

/-- A second sample usage record, distinct from `u1`. -/
def u2 : Usage := { input_tokens := some 7, output_tokens := some 4, total_tokens := some 11 }

/-- A usage record with every key absent: Python `{}`, a falsy dict. -/
def emptyUsage : Usage := { input_tokens := none, output_tokens := none, total_tokens := none }

/-- A pure tool-call message: no content, one tool call. -/
def mToolOnly : Message := { content := none, tool_calls := some [1], usage_metadata := none }

/-- A message carrying the final answer text. -/
def mAnswer : Message := { content := some "The answer is 42", tool_calls := some [], usage_metadata := none }

/-- A trailing message whose content is the empty string (falsy). -/
def mEmptyContent : Message := { content := some "", tool_calls := none, usage_metadata := none }

/-- A message carrying usage record `u1`. -/
def mUsage1 : Message := { content := some "thinking", tool_calls := none, usage_metadata := some (some u1) }

/-- A later message carrying usage record `u2`. -/
def mUsage2 : Message := { content := some "done", tool_calls := none, usage_metadata := some (some u2) }

/-- A message whose `usage_metadata` attribute exists but holds `None`. -/
def mNullUsage : Message := { content := none, tool_calls := none, usage_metadata := some none }

/-- A message whose `usage_metadata` attribute holds the empty dict. -/
def mEmptyUsage : Message := { content := none, tool_calls := none, usage_metadata := some (some emptyUsage) }

/-- A sample report with non-empty usage and a positive tool-call count. -/
def repSample : Report :=
  { finalAnswer := none, toolCallCount := 2, usage := some u1, messageCount := 3 }

/-! Helper lemmas about the two loops. -/

theorem forwardLoop_fst : ∀ (ms : List Message) (tc : Nat) (tu : Option Usage),
    (forwardLoop tc tu ms).1 = tc + toolSum ms := by
  intro ms
  induction ms with
  | nil => intro tc tu; simp [forwardLoop, toolSum]
  | cons m rest ih =>
      intro tc tu
      simp only [forwardLoop]
      rw [ih]
      rcases htc : m.tool_calls with _ | tcs
      · simp [toolSum, htc]
      · rcases tcs with _ | ⟨t, ts⟩
        · simp [toolSum, htc]
        · simp only [toolSum, htc, List.isEmpty_cons, List.map_cons, List.sum_cons,
            Option.getD_some, Bool.false_eq_true, if_false]
          omega

theorem forwardLoop_snd : ∀ (ms : List Message) (tc : Nat) (tu : Option Usage),
    (forwardLoop tc tu ms).2 = usageLoop tu ms := by
  intro ms
  induction ms with
  | nil => intro tc tu; rfl
  | cons m rest ih =>
      intro tc tu
      simp only [forwardLoop, usageLoop]
      exact ih _ _

theorem usageLoop_append : ∀ (a b : List Message) (tu : Option Usage),
    usageLoop tu (a ++ b) = usageLoop (usageLoop tu a) b := by
  intro a
  induction a with
  | nil => intro b tu; rfl
  | cons m rest ih =>
      intro b tu
      simp only [List.cons_append, usageLoop]
      exact ih b _

theorem usageLoop_of_none : ∀ (b : List Message),
    (∀ m ∈ b, m.usage_metadata = none) → ∀ tu, usageLoop tu b = tu := by
  intro b
  induction b with
  | nil => intro _ tu; rfl
  | cons m rest ih =>
      intro h tu
      have hm : m.usage_metadata = none := h m (by simp)
      simp only [usageLoop, hm]
      exact ih (fun x hx => h x (by simp [hx])) tu

theorem scanReversed_eq_none (a : List Message)
    (h : ∀ m ∈ a, contentTruthy m.content = false) : scanReversed a = none := by
  induction a with
  | nil => rfl
  | cons m rest ih =>
      have hm := h m (by simp)
      simp only [scanReversed, hm, Bool.false_eq_true, if_false]
      exact ih (fun x hx => h x (by simp [hx]))

theorem scanReversed_append_none (a b : List Message)
    (h : ∀ m ∈ a, contentTruthy m.content = false) :
    scanReversed (a ++ b) = scanReversed b := by
  induction a with
  | nil => rfl
  | cons m rest ih =>
      have hm := h m (by simp)
      simp only [List.cons_append, scanReversed, hm, Bool.false_eq_true, if_false]
      exact ih (fun x hx => h x (by simp [hx]))

theorem scanReversed_ne_empty : ∀ (ms : List Message) (s : String),
    scanReversed ms = some s → s ≠ "" := by
  intro ms
  induction ms with
  | nil => intro s h; exact absurd h (by simp [scanReversed])
  | cons m rest ih =>
      intro s h
      by_cases hc : contentTruthy m.content = true
      · rw [scanReversed, if_pos hc] at h
        rcases hm : m.content with _ | t
        · rw [hm] at h; exact absurd h (by simp)
        · rw [hm] at h hc
          have ht : t = s := by simpa using h
          subst ht
          simp only [contentTruthy, Bool.not_eq_true'] at hc
          intro hs
          rw [hs] at hc
          exact absurd hc (by decide)
      · rw [scanReversed, if_neg hc] at h
        exact ih s h

theorem buildReport_finalAnswer (r : Response) :
    (buildReport r).finalAnswer = scanReversed (r.messages.getD []).reverse := rfl

theorem buildReport_toolCallCount (r : Response) :
    (buildReport r).toolCallCount = toolSum (r.messages.getD []) := by
  show (forwardLoop 0 none _).1 = _
  rw [forwardLoop_fst]
  exact Nat.zero_add _

theorem buildReport_usage (r : Response) :
    (buildReport r).usage = usageLoop none (r.messages.getD []) :=
  forwardLoop_snd _ 0 none

theorem buildReport_messageCount (r : Response) :
    (buildReport r).messageCount = (r.messages.getD []).length := rfl

/-! Helper lemmas about line splitting. -/

theorem splitCharsOnNl_ne_nil (cs : List Char) : splitCharsOnNl cs ≠ [] := by
  induction cs with
  | nil => simp [splitCharsOnNl]
  | cons c cs ih =>
      simp only [splitCharsOnNl]
      rcases hs : splitCharsOnNl cs with _ | ⟨l, ls⟩
      · exact absurd hs ih
      · by_cases hc : c = '\n' <;> simp [hc]

theorem splitCharsOnNl_append_no_nl (a b : List Char) (h : ∀ c ∈ a, c ≠ '\n') :
    splitCharsOnNl (a ++ b) =
      (a ++ (splitCharsOnNl b).headI) :: (splitCharsOnNl b).tail := by
  induction a with
  | nil =>
      rcases hs : splitCharsOnNl b with _ | ⟨l, ls⟩
      · exact absurd hs (splitCharsOnNl_ne_nil b)
      · simp [hs]
  | cons c a ih =>
      have hc : c ≠ '\n' := h c (by simp)
      simp only [List.cons_append, splitCharsOnNl, List.append_eq]
      rw [ih (fun x hx => h x (by simp [hx]))]
      simp [hc]

theorem splitCharsOnNl_no_nl (a : List Char) (h : ∀ c ∈ a, c ≠ '\n') :
    splitCharsOnNl a = [a] := by
  have := splitCharsOnNl_append_no_nl a [] h
  simpa [splitCharsOnNl] using this

theorem splitCharsOnNl_final_nl (a : List Char) (h : ∀ c ∈ a, c ≠ '\n') :
    splitCharsOnNl (a ++ ['\n']) = [a, []] := by
  have h1 : splitCharsOnNl ['\n'] = [[], []] := rfl
  rw [splitCharsOnNl_append_no_nl a ['\n'] h, h1]
  simp

theorem string_data_append (s t : String) : (s ++ t).data = s.data ++ t.data := rfl

theorem splitLines_single (s : String) (h : noNl s) :
    splitLines (s ++ "\n") = [s, ""] := by
  unfold splitLines
  rw [string_data_append]
  have hnl : ("\n" : String).data = ['\n'] := rfl
  rw [hnl, splitCharsOnNl_final_nl s.data h]
  rfl

/-- Claim C1: for every run, the report's `finalAnswer` is the content of the
highest-indexed message whose content is non-empty (the first hit of the
reverse scan), independent of any later messages with empty or absent
content, and absent when no message has non-empty content. -/
theorem c1_final_answer_last_nonempty (ms : List Message) :
    ((∀ m ∈ ms, contentTruthy m.content = false) →
      (buildReport { messages := some ms }).finalAnswer = none)
    ∧ (∀ pre m0 post, ms = pre ++ m0 :: post → contentTruthy m0.content = true →
        (∀ m' ∈ post, contentTruthy m'.content = false) →
        (buildReport { messages := some ms }).finalAnswer = m0.content) := by
  constructor
  · intro h
    rw [buildReport_finalAnswer]
    exact scanReversed_eq_none _ (fun m hm => h m (List.mem_reverse.mp hm))
  · intro pre m0 post heq htrue hpost
    subst heq
    rw [buildReport_finalAnswer]
    show scanReversed (pre ++ m0 :: post).reverse = m0.content
    rw [List.reverse_append, List.reverse_cons, List.append_assoc]
    rw [scanReversed_append_none _ _ (fun x hx => hpost x (List.mem_reverse.mp hx))]
    simp [scanReversed, htrue]

/-- Witness for C1 on a concrete run: tool-call message, answer message,
then a message with empty content; the answer message's content wins. -/
theorem c1_witness :
    contentTruthy mAnswer.content = true ∧
    (buildReport { messages := some [mToolOnly, mAnswer, mEmptyContent] }).finalAnswer
      = mAnswer.content :=
  ⟨by decide,
   (c1_final_answer_last_nonempty [mToolOnly, mAnswer, mEmptyContent]).2
     [mToolOnly] mAnswer [mEmptyContent] rfl (by decide) (by decide)⟩

/-- Claim C2: for every run, the report's `usage` is the usage-metadata value
of the last message that carries the `usage_metadata` attribute (last writer
wins, not a sum), and absent when no message carries it. -/
theorem c2_usage_last_writer (ms : List Message) :
    ((∀ m ∈ ms, m.usage_metadata = none) →
      (buildReport { messages := some ms }).usage = none)
    ∧ (∀ pre m0 post v, ms = pre ++ m0 :: post → m0.usage_metadata = some v →
        (∀ m' ∈ post, m'.usage_metadata = none) →
        (buildReport { messages := some ms }).usage = v) := by
  constructor
  · intro h
    rw [buildReport_usage]
    exact usageLoop_of_none _ h none
  · intro pre m0 post v heq hv hpost
    subst heq
    rw [buildReport_usage]
    show usageLoop none (pre ++ m0 :: post) = v
    rw [usageLoop_append]
    simp only [usageLoop, hv]
    exact usageLoop_of_none post hpost v

/-- Witness for C2 on a concrete run with two usage-bearing messages: the
later record `u2` wins, not a sum. -/
theorem c2_witness :
    (buildReport { messages := some [mUsage1, mUsage2] }).usage = some u2 :=
  (c2_usage_last_writer [mUsage1, mUsage2]).2 [mUsage1] mUsage2 [] (some u2)
    rfl rfl (by simp)

/-- Claim C3: for every run, `toolCallCount` is the sum of the lengths of the
messages' tool-call lists (absent treated as empty), the sum is invariant
under permutation of the messages, and it is 0 when no message has tool
calls. -/
theorem c3_tool_call_count_sum (ms ms' : List Message) :
    (buildReport { messages := some ms }).toolCallCount
      = (ms.map (fun m => (m.tool_calls.getD []).length)).sum
    ∧ (ms.Perm ms' →
        (buildReport { messages := some ms }).toolCallCount
          = (buildReport { messages := some ms' }).toolCallCount)
    ∧ ((∀ m ∈ ms, m.tool_calls.getD [] = []) →
        (buildReport { messages := some ms }).toolCallCount = 0) := by
  refine ⟨?_, ?_, ?_⟩
  · rw [buildReport_toolCallCount]; rfl
  · intro hperm
    rw [buildReport_toolCallCount, buildReport_toolCallCount]
    exact List.Perm.sum_eq (hperm.map _)
  · intro h
    rw [buildReport_toolCallCount]
    unfold toolSum
    apply List.sum_eq_zero
    intro x hx
    rcases List.mem_map.mp hx with ⟨m, hm, hxm⟩
    rw [← hxm, h m hm]
    rfl

/-- Witness for C3 on a concrete run: the count is the sum, and swapping the
two messages leaves it unchanged. -/
theorem c3_witness :
    (buildReport { messages := some [mToolOnly, mAnswer] }).toolCallCount
      = ([mToolOnly, mAnswer].map (fun m => (m.tool_calls.getD []).length)).sum
    ∧ (buildReport { messages := some [mToolOnly, mAnswer] }).toolCallCount
      = (buildReport { messages := some [mAnswer, mToolOnly] }).toolCallCount :=
  ⟨(c3_tool_call_count_sum [mToolOnly, mAnswer] []).1,
   (c3_tool_call_count_sum [mToolOnly, mAnswer] [mAnswer, mToolOnly]).2.1
     (List.Perm.swap mAnswer mToolOnly [])⟩

/-- Claim C4: for every run whose message sequence is empty, `buildReport`
yields an absent final answer, tool-call count 0, absent usage, and message
count 0. -/
theorem c4_empty_run_report (response : Response) (h : response.messages = some []) :
    buildReport response
      = { finalAnswer := none, toolCallCount := 0, usage := none, messageCount := 0 } := by
  obtain ⟨msgs⟩ := response
  have h' : msgs = some [] := h
  subst h'
  rfl

/-- Witness for C4 at the concrete empty run. -/
theorem c4_witness :
    buildReport { messages := some ([] : List Message) }
      = { finalAnswer := none, toolCallCount := 0, usage := none, messageCount := 0 } :=
  c4_empty_run_report { messages := some [] } rfl

/-- Claim C5: `buildReport` is total and degrades every absent field
gracefully — when no message has truthy content the rendering falls back to
the "No response found" marker, when no message carries usage metadata the
token lines are omitted, and an absent or empty message sequence yields the
all-absent/zero report. (Totality itself is witnessed by `buildReport` and
`format_agent_response` being total Lean functions over every `Response`.) -/
theorem c5_total_degradation (response : Response) :
    ((∀ m ∈ response.messages.getD [], contentTruthy m.content = false) →
      answerPrints (buildReport response).finalAnswer
        = [RED ++ "   No response found" ++ RESET])
    ∧ ((∀ m ∈ response.messages.getD [], m.usage_metadata = none) →
      usagePrints (buildReport response).usage = [])
    ∧ (response.messages = none ∨ response.messages = some [] →
      buildReport response
        = { finalAnswer := none, toolCallCount := 0, usage := none, messageCount := 0 }) := by
  refine ⟨?_, ?_, ?_⟩
  · intro h
    have hfa : (buildReport response).finalAnswer = none := by
      rw [buildReport_finalAnswer]
      exact scanReversed_eq_none _ (fun m hm => h m (List.mem_reverse.mp hm))
    rw [hfa]
    rfl
  · intro h
    have hu : (buildReport response).usage = none := by
      rw [buildReport_usage]
      exact usageLoop_of_none _ h none
    rw [hu]
    rfl
  · intro h
    obtain ⟨msgs⟩ := response
    rcases h with h | h
    · have h' : msgs = none := h
      subst h'
      rfl
    · have h' : msgs = some [] := h
      subst h'
      rfl

/-- Witness for C5 at the run whose record lacks the messages field. -/
theorem c5_witness :
    buildReport { messages := none }
      = { finalAnswer := none, toolCallCount := 0, usage := none, messageCount := 0 } :=
  (c5_total_degradation { messages := none }).2.2 (Or.inl rfl)

/-- Claim C10: a run record without the messages field behaves exactly like a
run with an empty message sequence, for the report and for the whole
rendering, instead of failing. -/
theorem c10_missing_messages_key (user_question model_name timestamp : String) :
    buildReport { messages := none } = buildReport { messages := some [] }
    ∧ format_agent_response { messages := none } user_question model_name timestamp
      = format_agent_response { messages := some [] } user_question model_name timestamp :=
  ⟨rfl, rfl⟩

/-- The loop body of the answer section rewritten with the blank-line test
spelled as an equality with the empty string. -/
theorem answerLine_eq (line : String) :
    answerLine line
      = if line.trim = "" then "" else DARK_GREY ++ "   " ++ line.trim ++ RESET :=
  if_congr (String.isEmpty_iff line.trim) rfl rfl

/-- Claim C6: in the rendering, a present (hence non-empty, see the last
conjunct) `finalAnswer` is split on line breaks and each line emitted
individually — a blank line stays blank, a non-blank line is trimmed of
leading/trailing whitespace and indented; an absent `finalAnswer` yields the
fixed "No response found" marker line instead. -/
theorem c6_answer_rendering (final_answer : Option String) :
    (∀ s, final_answer = some s → s ≠ "" →
      answerPrints final_answer
        = (s.splitOn "\n").map (fun line =>
            if line.trim = "" then "" else DARK_GREY ++ "   " ++ line.trim ++ RESET))
    ∧ (final_answer = none →
      answerPrints final_answer = [RED ++ "   No response found" ++ RESET])
    ∧ (∀ (response : Response) (s : String),
        (buildReport response).finalAnswer = some s → s ≠ "") := by
  refine ⟨?_, ?_, ?_⟩
  · intro s h hs
    subst h
    have hb : s.isEmpty = false := by
      cases he : s.isEmpty
      · rfl
      · exact absurd ((String.isEmpty_iff s).mp he) hs
    simp only [answerPrints, hb, Bool.not_false, if_true]
    exact List.map_congr_left (fun line _ => answerLine_eq line)
  · intro h
    subst h
    rfl
  · intro response s h
    rw [buildReport_finalAnswer] at h
    exact scanReversed_ne_empty _ s h

/-- Witness for C6 at a concrete three-line answer with surrounding blanks
and at the absent answer. -/
theorem c6_witness :
    answerPrints (some "  Hello \n\nWorld")
      = ("  Hello \n\nWorld".splitOn "\n").map (fun line =>
          if line.trim = "" then "" else DARK_GREY ++ "   " ++ line.trim ++ RESET)
    ∧ answerPrints none = [RED ++ "   No response found" ++ RESET] :=
  ⟨(c6_answer_rendering (some "  Hello \n\nWorld")).1 _ rfl (by decide),
   (c6_answer_rendering none).2.1 rfl⟩

/-- Claim C7 counterexample: a run whose single message carries an empty
usage dict gives a report whose `usage` is present, yet no token line is
emitted — contradicting "whenever the report's usage record is present, the
input, output, and total token counts are each emitted". -/
theorem c7_counterexample_empty_usage :
    ((buildReport { messages := some [mEmptyUsage] }).usage).isSome = true
    ∧ usagePrints (buildReport { messages := some [mEmptyUsage] }).usage = [] := by
  constructor
  · rfl
  · rfl

/-- Claim C7 (amended): whenever the report's usage record is present AND
non-empty (truthy), the input, output, and total token lines are each
emitted, each showing the literal value or the fixed "N/A" marker for a
missing sub-field; the tool-call line is omitted when the count is zero and
emitted when positive; the message-count line is always among the metadata
prints. -/
theorem c7_metadata_rendering_amended (report : Report) :
    (∀ u, report.usage = some u → u.truthy = true →
      usagePrints report.usage
        = [ PURPLE ++ "   • Input tokens:" ++ RESET ++ " " ++ tokField u.input_tokens,
            PURPLE ++ "   • Output tokens:" ++ RESET ++ " " ++ tokField u.output_tokens,
            PURPLE ++ "   • Total tokens:" ++ RESET ++ " " ++ tokField u.total_tokens ])
    ∧ (∀ n : Nat, tokField (some n) = toString n)
    ∧ tokField none = "N/A"
    ∧ (report.toolCallCount = 0 → toolPrints report.toolCallCount = [])
    ∧ (0 < report.toolCallCount →
        toolPrints report.toolCallCount
          = [PURPLE ++ "   • Tool calls made:" ++ RESET ++ " " ++ toString report.toolCallCount])
    ∧ (PURPLE ++ "   • Total messages:" ++ RESET ++ " " ++ toString report.messageCount)
        ∈ metaPrints report := by
  refine ⟨?_, fun n => rfl, rfl, ?_, ?_, ?_⟩
  · intro u hu ht
    rw [hu]
    simp only [usagePrints]
    rw [if_pos ht]
  · intro h
    rw [h]
    rfl
  · intro h
    unfold toolPrints
    rw [if_pos h]
  · simp [metaPrints]

/-- Witness for C7 at the sample report: usage `u1` is present and truthy,
the tool-call count is 2, and the message count is 3. -/
theorem c7_witness :
    Report.usage repSample = some u1
    ∧ usagePrints repSample.usage
        = [ PURPLE ++ "   • Input tokens:" ++ RESET ++ " " ++ tokField u1.input_tokens,
            PURPLE ++ "   • Output tokens:" ++ RESET ++ " " ++ tokField u1.output_tokens,
            PURPLE ++ "   • Total tokens:" ++ RESET ++ " " ++ tokField u1.total_tokens ]
    ∧ toolPrints repSample.toolCallCount
        = [PURPLE ++ "   • Tool calls made:" ++ RESET ++ " " ++ toString repSample.toolCallCount]
    ∧ (PURPLE ++ "   • Total messages:" ++ RESET ++ " " ++ toString repSample.messageCount)
        ∈ metaPrints repSample :=
  ⟨rfl,
   (c7_metadata_rendering_amended repSample).1 u1 rfl (by decide),
   (c7_metadata_rendering_amended repSample).2.2.2.2.1 (by decide),
   (c7_metadata_rendering_amended repSample).2.2.2.2.2⟩

/-- Claim C8 counterexample: for the two-line question "a\nb" the rendering's
second line is "b" followed by the color reset — it does not start with the
indentation prefix (neither the colored one nor the bare three spaces), so
not every line of the question is prefixed for indentation. -/
theorem c8_counterexample_multiline_question :
    splitLines (questionOut "a\nb") = [DARK_GREY ++ "   a", "b" ++ RESET, ""]
    ∧ ("b" ++ RESET).data.take ("   " : String).data.length ≠ ("   " : String).data
    ∧ ("b" ++ RESET).data.take (DARK_GREY ++ "   ").data.length ≠ (DARK_GREY ++ "   ").data := by
  refine ⟨?_, ?_, ?_⟩ <;> decide

/-- Claim C8 (amended): the rendering reproduces the original question
verbatim inside a single print, with the indentation prefix applied once,
before the question's first character: a question without line breaks is
rendered as exactly one indented line, while subsequent lines of a
multi-line question appear verbatim but unprefixed (see the
counterexample). -/
theorem c8_question_rendering_amended (q : String) :
    questionOut q = DARK_GREY ++ "   " ++ q ++ RESET ++ "\n"
    ∧ (noNl q →
        splitLines (questionOut q) = [DARK_GREY ++ "   " ++ q ++ RESET, ""]) := by
  constructor
  · rfl
  · intro hq
    have hdg : ∀ c ∈ DARK_GREY.data, c ≠ '\n' := by decide
    have hsp : ∀ c ∈ ("   " : String).data, c ≠ '\n' := by decide
    have hrs : ∀ c ∈ RESET.data, c ≠ '\n' := by decide
    have h : noNl (DARK_GREY ++ "   " ++ q ++ RESET) := by
      intro c hc
      rw [string_data_append, string_data_append, string_data_append] at hc
      rcases List.mem_append.mp hc with hc1 | hc1
      · rcases List.mem_append.mp hc1 with hc2 | hc2
        · rcases List.mem_append.mp hc2 with hc3 | hc3
          · exact hdg c hc3
          · exact hsp c hc3
        · exact hq c hc2
      · exact hrs c hc1
    exact splitLines_single (DARK_GREY ++ "   " ++ q ++ RESET) h

/-- Witness for C8 at a concrete single-line question. -/
theorem c8_witness :
    noNl "What is 6 times 7?"
    ∧ splitLines (questionOut "What is 6 times 7?")
        = [DARK_GREY ++ "   " ++ "What is 6 times 7?" ++ RESET, ""] :=
  ⟨by decide, (c8_question_rendering_amended "What is 6 times 7?").2 (by decide)⟩

/-- Claim C9: the usage accumulator is overwritten by every message that
exposes a `usage_metadata` field, even when its value is null or an empty
record; so when the last such message holds a null/empty value, the report's
usage is that value and the token lines are omitted from the rendering, even
though an earlier message carried non-empty usage metadata. -/
theorem c9_usage_overwrite_null (ms pre : List Message) (mLast : Message)
    (v : Option Usage) (heq : ms = pre ++ [mLast])
    (hv : mLast.usage_metadata = some v) (hfalsy : tokenUsageTruthy v = false)
    (_hearlier : ∃ m1 ∈ pre, ∃ u : Usage,
      m1.usage_metadata = some (some u) ∧ u.truthy = true) :
    (buildReport { messages := some ms }).usage = v
    ∧ usagePrints (buildReport { messages := some ms }).usage = [] := by
  subst heq
  have husage : (buildReport { messages := some (pre ++ [mLast]) }).usage = v := by
    rw [buildReport_usage]
    show usageLoop none (pre ++ [mLast]) = v
    rw [usageLoop_append]
    simp only [usageLoop, hv]
  refine ⟨husage, ?_⟩
  rw [husage]
  rcases v with _ | u
  · rfl
  · simp only [tokenUsageTruthy] at hfalsy
    simp [usagePrints, hfalsy]

/-- Witness for C9: a run whose first message carries non-empty usage `u1`
and whose last message exposes `usage_metadata = None`; the report's usage is
`None` and no token line is emitted. -/
theorem c9_witness :
    (buildReport { messages := some [mUsage1, mNullUsage] }).usage = none
    ∧ usagePrints (buildReport { messages := some [mUsage1, mNullUsage] }).usage = [] :=
  c9_usage_overwrite_null [mUsage1, mNullUsage] [mUsage1] mNullUsage none rfl rfl rfl
    ⟨mUsage1, by simp, u1, rfl, by decide⟩
